import Mathlib

/-!
Verification development for the build-n-run watcher (src/main.rs).

The program is a single supervision loop: it invokes the external build
driver, on success kills and reaps the previously running child and spawns
the freshly built executable, then blocks on a debounced filesystem event
channel until a meaningful event arrives, drains the channel, and repeats.

The shallow embedding below translates the pieces of src/main.rs that the
claims are about: the configuration record, the cargo argument vector built
by the function named build, the executable path computed by the function
named run, the event classification in the inner match of the function
named main, the kill and reap and spawn sequence of the outer loop, and the
channel drain. Stateful parts are modelled as explicit step functions that
also emit a trace of the actions they perform; results of external calls
(build exit status, spawn result, kill and wait results, channel contents)
are inputs to the step functions.
-/

/-- Mirror of the strum-derived Color enum (serialize_all lowercase). -/
inductive Color where
  | auto
  | always
  | never
deriving DecidableEq, Repr

/-- The lowercase static string strum produces for each variant. -/
def Color.render : Color → String
  | .auto => "auto"
  | .always => "always"
  | .never => "never"

/-- Mirror of the clap-derived BuildNRun configuration struct, field for
field and in declaration order.  OsString is modelled as String, i32 as
Int, u32 occurrence counts as Nat. -/
structure BuildNRun where
  watch : List String
  quiet : Bool
  bin : String
  package : Option String
  jobs : Option Int
  release : Bool
  profile : Option String
  features : List String
  all_features : Bool
  no_default_features : Bool
  target : Option String
  target_dir : Option String
  manifest_path : Option String
  message_format_path : List String
  verbose : Nat
  color : Option Color
  frozen : Bool
  locked : Bool
  offline : Bool
  args : List String
deriving DecidableEq, Repr

/-- The argument vector the function build passes to the cargo command,
translated clause by clause from src/main.rs lines 74-175. -/
def buildArgs (bnr : BuildNRun) : List String :=
  [ "build" ]
  ++ (if bnr.quiet then [ "--quiet" ] else [])
  ++ [ "--bin=" ++ bnr.bin ]
  ++ (match bnr.package with
      | some p => [ "--package=" ++ p ]
      | none => [])
  ++ (match bnr.jobs with
      | some j => [ "--jobs" , toString j ]
      | none => [])
  ++ (if bnr.release then [ "--release" ] else [])
  ++ (match bnr.profile with
      | some p => [ "--profile=" ++ p ]
      | none => [])
  ++ bnr.features.map (fun f => "--features=" ++ f)
  ++ (if bnr.all_features then [ "--all-features" ] else [])
  ++ (if bnr.no_default_features then [ "--no-default-features" ] else [])
  ++ (match bnr.target with
      | some t => [ "--target=" ++ t ]
      | none => [])
  ++ (match bnr.manifest_path with
      | some m => [ "--manifest-path=" ++ m ]
      | none => [])
  ++ bnr.message_format_path.map (fun p => "--message-format-path=" ++ p)
  ++ List.replicate bnr.verbose ("-v")
  ++ (match bnr.color with
      | some c => [ "--color=" ++ c.render ]
      | none => [])
  ++ (if bnr.frozen then [ "--frozen" ] else [])
  ++ (if bnr.locked then [ "--locked" ] else [])
  ++ (if bnr.offline then [ "--offline" ] else [])

/-- The executable path computed by the function run (src/main.rs lines
178-190).  OsString push is raw concatenation, so this is a fold of string
appends: the base (target_dir, or the literal target/ when absent), then
release or debug, then a slash, then the binary name. -/
def exePath (bnr : BuildNRun) : String :=
  let base : String :=
    match bnr.target_dir with
    | some td => td
    | none => "target/"
  let withSub : String := if bnr.release then base ++ "release" else base ++ "debug"
  withSub ++ "/" ++ bnr.bin

/-- Does the string end in a slash character?  Helper for the spec-side
path join below. -/
def endsWithSlash (s : String) : Bool :=
  s.data.getLast? = some '/'

/-- Spec-side definition, following the words of the spec: joining two
path segments inserts a separator between them unless the left segment
already ends in one.  Used only to compare against exePath. -/
def pathJoin (a b : String) : String :=
  if endsWithSlash a then a ++ b else a ++ "/" ++ b

/-- Spec-side definition, following the words of the spec: the executable
path is the path join of target_dir (default target/), the release or
debug subdirectory, and the binary name. -/
def exePathSpec (bnr : BuildNRun) : String :=
  pathJoin (pathJoin (bnr.target_dir.getD ("target/")) (if bnr.release then ("release") else ("debug"))) bnr.bin

/-- Mirror of the ignore crate Match result as consumed by the code:
no match, an ignore match, or a whitelist match. -/
inductive IgnoreMatch where
  | nomatch
  | ignored
  | whitelisted
deriving DecidableEq, Repr

/-- Mirror of Match::is_ignore: true exactly on an ignore match. -/
def IgnoreMatch.is_ignore : IgnoreMatch → Bool
  | .ignored => true
  | _ => false

/-- The gitignore matcher as consulted by the code: a function of the path
and the is_dir flag. -/
abbrev GitignoreMatcher := String → Bool → IgnoreMatch

/-- Mirror of the notify 4.x DebouncedEvent enum the code matches on.
Paths are modelled as String; the Error variant carries the error message
and an optional path. -/
inductive DebouncedEvent where
  | noticeWrite (path : String)
  | noticeRemove (path : String)
  | create (path : String)
  | write (path : String)
  | chmod (path : String)
  | remove (path : String)
  | rename (old : String) (new : String)
  | rescan
  | errorEvent (message : String) (path : Option String)
deriving DecidableEq, Repr

/-- Result of one blocking rx.recv() call: an event, or a channel error
(the sending side disconnected). -/
inductive RecvResult where
  | ok (e : DebouncedEvent)
  | err
deriving DecidableEq, Repr

/-- What one pass of the inner wait loop body does with a received
result. -/
inductive LoopAction where
  | breakWait
  | keepWaiting
  | exitNonZero
deriving DecidableEq, Repr

/-- One pass of the inner wait loop of main (src/main.rs lines 219-228):
rx.recv().unwrap() panics (non-zero exit) on a channel error; otherwise
the match breaks on Write, Rename (new path), Remove and Create whose path
the matcher does not classify as ignored (is_dir passed as false), breaks
on Rescan, and continues on everything else. -/
def waitStep (gi : GitignoreMatcher) : RecvResult → LoopAction
  | .err => .exitNonZero
  | .ok (.write f) => if !(gi f false).is_ignore then .breakWait else .keepWaiting
  | .ok (.rename _ f) => if !(gi f false).is_ignore then .breakWait else .keepWaiting
  | .ok (.remove f) => if !(gi f false).is_ignore then .breakWait else .keepWaiting
  | .ok (.create f) => if !(gi f false).is_ignore then .breakWait else .keepWaiting
  | .ok .rescan => .breakWait
  | .ok _ => .keepWaiting

/-- Outcome of running the inner wait loop over a buffer of receive
results: it resumes the outer loop with the remaining buffer, or exits on
a channel error, or blocks when the modelled buffer is exhausted without a
meaningful event. -/
inductive WaitResult where
  | resumed (rest : List RecvResult)
  | exited
  | blocked
deriving DecidableEq, Repr

/-- The inner wait loop of main run over a finite buffer of receive
results. -/
def waitLoop (gi : GitignoreMatcher) : List RecvResult → WaitResult
  | [] => .blocked
  | r :: rest =>
    match waitStep gi r with
    | .exitNonZero => .exited
    | .breakWait => .resumed rest
    | .keepWaiting => waitLoop gi rest

/-- The drain loop of main (src/main.rs line 229): while try_recv is ok,
discard.  try_recv is ok exactly while the buffer front holds an event;
a channel error stops the drain just like an empty buffer does. -/
def drainLoop : List RecvResult → List RecvResult
  | [] => []
  | .ok _ :: rest => drainLoop rest
  | .err :: rest => .err :: rest

/-- A child process handle, identified by pid. -/
structure Child where
  pid : Nat
deriving DecidableEq, Repr

/-- Result of a kill or wait system call on a child; the code discards it
either way. -/
inductive SysResult where
  | ok
  | err
deriving DecidableEq, Repr

/-- Observable actions of one pass of the outer supervision loop head. -/
inductive SupAction where
  | buildInvoked
  | killSent (c : Child)
  | childReaped (c : Child)
  | childSpawned
deriving DecidableEq, Repr

/-- The kill and reap actions performed on the previous child, if any. -/
def prevTermination : Option Child → List SupAction
  | some c => [ .killSent c, .childReaped c ]
  | none => []

/-- The head of one outer loop iteration of main (src/main.rs lines
210-217): invoke build; if it succeeded, take the previous child if any,
send it kill and wait for it (both results discarded by let underscore),
then spawn via run, storing the spawn result (possibly none) as the new
current child; if build failed, leave the current child untouched.
Returns the new current child and the trace of actions performed, in
order.  buildOk and spawnResult are the outcomes of the external build and
spawn calls; the kill and wait results are inputs that the code discards,
so they do not occur in the right hand side. -/
def supStep (buildOk : Bool) (proc spawnResult : Option Child)
    (killRes reapRes : SysResult) : Option Child × List SupAction :=
  if buildOk then
    match proc with
    | some c => (spawnResult, [ .buildInvoked, .killSent c, .childReaped c, .childSpawned ])
    | none => (spawnResult, [ .buildInvoked, .childSpawned ])
  else
    (proc, [ .buildInvoked ])

/-- Outcome of one full iteration of the outer loop: continue with a new
current child and a drained buffer, or exit non-zero on a channel error,
or stay blocked inside the wait. -/
inductive IterOutcome where
  | next (proc : Option Child) (buffer : List RecvResult) (trace : List SupAction)
  | exited (trace : List SupAction)
  | blocked (proc : Option Child) (trace : List SupAction)
deriving DecidableEq, Repr

/-- One full iteration of the outer loop of main: the build and recycle
head, then the blocking wait over the buffer, then the drain. -/
def iteration (gi : GitignoreMatcher) (buildOk : Bool) (proc spawnResult : Option Child)
    (killRes reapRes : SysResult) (buf : List RecvResult) : IterOutcome :=
  let step := supStep buildOk proc spawnResult killRes reapRes
  match waitLoop gi buf with
  | .exited => .exited step.2
  | .resumed rest => .next step.1 (drainLoop rest) step.2
  | .blocked => .blocked step.1 step.2

/-- Mirror of notify RecursiveMode as used at the watch call sites. -/
inductive RecursiveMode where
  | recursive
  | nonRecursive
deriving DecidableEq, Repr

/-- The watch calls issued by main (src/main.rs lines 200-206): the
current directory when the configured list is empty, otherwise each
configured root, always recursively. -/
def watchTargets (watch : List String) : List (String × RecursiveMode) :=
  if watch.isEmpty then [ (".", RecursiveMode.recursive) ]
  else watch.map (fun w => (w, RecursiveMode.recursive))

/-- A configuration with every option at its default and binary name
app. -/
def bnrDefault : BuildNRun :=
  ⟨[], false, "app", none, none, false, none, [], false, false,
   none, none, none, [], 0, none, false, false, false, []⟩

/-- The default configuration with one message-format value json. -/
def bnrMsgFmt : BuildNRun :=
  ⟨[], false, "app", none, none, false, none, [], false, false,
   none, none, none, [ "json" ], 0, none, false, false, false, []⟩

/-- The default configuration with target_dir set to build (no trailing
separator). -/
def bnrTargetDir : BuildNRun :=
  ⟨[], false, "app", none, none, false, none, [], false, false,
   none, some ("build"), none, [], 0, none, false, false, false, []⟩

/-- The default configuration with target_dir set to build/ (with a
trailing separator). -/
def bnrTargetDirSlash : BuildNRun :=
  ⟨[], false, "app", none, none, false, none, [], false, false,
   none, some ("build/"), none, [], 0, none, false, false, false, []⟩

/-- A matcher that ignores a path exactly when consulted with is_dir
true. -/
def dirOnlyIgnore : GitignoreMatcher :=
  fun _ isDir => if isDir then IgnoreMatch.ignored else IgnoreMatch.nomatch

/-- A matcher that never ignores anything. -/
def neverIgnore : GitignoreMatcher :=
  fun _ _ => IgnoreMatch.nomatch

/-- A fully populated configuration exercising every build flag. -/
def bnrFull : BuildNRun :=
  ⟨[ "src" ], true, "app", some ("pkg"), some 4, true, some ("prof"), [ "f1", "f2" ], true, true,
   some ("x86"), some ("tdir"), some ("Cargo.toml"), [ "json" ], 2, some Color.always,
   true, true, true, [ "a1" ]⟩

/-- Appending a nonempty string does not change whether the result ends in
a slash coming from the left part. -/
theorem endsWithSlash_append (a b : String) (hb : b.data ≠ []) :
    endsWithSlash (a ++ b) = endsWithSlash b := by
  simp [endsWithSlash, String.data_append, List.getLast?_append_of_ne_nil _ hb]

/-- C1: in a successful-build iteration with a previous child, the trace is
exactly build, kill, reap, spawn in that order; the discarded kill and wait
results never change the step; and in any iteration whatsoever a spawn is
preceded by the kill and the reap of the previous child when one existed. -/
theorem supervisor_kill_reap_precedes_spawn (c : Child) (s : Option Child)
    (kr rr kr2 rr2 : SysResult) :
    supStep true (some c) s kr rr
        = (s, [ SupAction.buildInvoked, SupAction.killSent c, SupAction.childReaped c,
                SupAction.childSpawned ])
    ∧ supStep true (some c) s kr rr = supStep true (some c) s kr2 rr2
    ∧ ∀ (buildOk : Bool) (p q : Option Child),
        SupAction.childSpawned ∈ (supStep buildOk p q kr rr).2 →
          List.Sublist (prevTermination p ++ [ SupAction.childSpawned ])
            (supStep buildOk p q kr rr).2 := by
  refine ⟨rfl, rfl, ?_⟩
  intro buildOk p q hmem
  cases buildOk with
  | false => simp [supStep] at hmem
  | true =>
    cases p with
    | none => simp [supStep, prevTermination]
    | some d => simp [supStep, prevTermination]

theorem supervisor_kill_reap_precedes_spawn_witness :
    List.Sublist (prevTermination (some ⟨1⟩) ++ [ SupAction.childSpawned ])
      (supStep true (some ⟨1⟩) none SysResult.ok SysResult.ok).2 :=
  (supervisor_kill_reap_precedes_spawn ⟨1⟩ none SysResult.ok SysResult.ok
      SysResult.ok SysResult.ok).2.2 true (some ⟨1⟩) none (by decide)

/-- C2: the wait loop breaks exactly on Create, Write, Remove with a
non-ignored path, Rename with a non-ignored new path, and Rescan; on
everything else it keeps waiting. -/
theorem meaningful_event_classification (gi : GitignoreMatcher) (e : DebouncedEvent) :
    (waitStep gi (RecvResult.ok e) = LoopAction.breakWait ↔
      ((∃ f, (e = DebouncedEvent.create f ∨ e = DebouncedEvent.write f
              ∨ e = DebouncedEvent.remove f)
          ∧ (gi f false).is_ignore = false)
        ∨ (∃ o f, e = DebouncedEvent.rename o f ∧ (gi f false).is_ignore = false)
        ∨ e = DebouncedEvent.rescan))
    ∧ (waitStep gi (RecvResult.ok e) = LoopAction.breakWait
        ∨ waitStep gi (RecvResult.ok e) = LoopAction.keepWaiting) := by
  constructor
  · cases e with
    | noticeWrite f => simp [waitStep]
    | noticeRemove f => simp [waitStep]
    | chmod f => simp [waitStep]
    | errorEvent m p => simp [waitStep]
    | rescan => simp [waitStep]
    | create f => cases h : (gi f false).is_ignore <;> simp [waitStep, h]
    | write f => cases h : (gi f false).is_ignore <;> simp [waitStep, h]
    | remove f => cases h : (gi f false).is_ignore <;> simp [waitStep, h]
    | rename o f =>
      cases h : (gi f false).is_ignore <;> simp [waitStep, h]
      exact ⟨o, f, ⟨rfl, rfl⟩, h⟩
  · cases e with
    | noticeWrite f => simp [waitStep]
    | noticeRemove f => simp [waitStep]
    | chmod f => simp [waitStep]
    | errorEvent m p => simp [waitStep]
    | rescan => simp [waitStep]
    | create f => cases h : (gi f false).is_ignore <;> simp [waitStep, h]
    | write f => cases h : (gi f false).is_ignore <;> simp [waitStep, h]
    | remove f => cases h : (gi f false).is_ignore <;> simp [waitStep, h]
    | rename o f => cases h : (gi f false).is_ignore <;> simp [waitStep, h]

/-- C3 counterexample: with target_dir build (no trailing separator) the
code computes builddebug/app, not the join build/debug/app. -/
theorem exe_path_join_counterexample :
    exePath bnrTargetDir = "builddebug/app"
    ∧ exePathSpec bnrTargetDir = "build/debug/app"
    ∧ exePath bnrTargetDir ≠ exePathSpec bnrTargetDir :=
  ⟨rfl, by decide, by decide⟩

/-- C3 amended: the executable path is raw concatenation of the base
(target_dir, default target/), the release or debug segment, a slash, and
the binary name; it agrees with the path join exactly when the base
already ends in a separator, in particular in the default case. -/
theorem exe_path_concatenation (bnr : BuildNRun) (td : String) :
    (bnr.target_dir = some td →
      exePath bnr = td ++ (if bnr.release then ("release") else ("debug")) ++ "/" ++ bnr.bin)
    ∧ (bnr.target_dir = none → exePath bnr = exePathSpec bnr)
    ∧ (bnr.target_dir = some td → endsWithSlash td = true → exePath bnr = exePathSpec bnr) := by
  refine ⟨?_, ?_, ?_⟩
  · intro h
    cases hr : bnr.release <;> simp [exePath, h, hr]
  · intro h
    have h1 : endsWithSlash ("target/") = true := by decide
    have h2 : endsWithSlash ("target/release") = false := by decide
    have h3 : endsWithSlash ("target/debug") = false := by decide
    cases hr : bnr.release <;>
      simp [exePath, exePathSpec, pathJoin, h, hr, h1, h2, h3]
  · intro h hs
    cases hr : bnr.release with
    | false =>
      have hd : endsWithSlash (td ++ "debug") = false := by
        rw [endsWithSlash_append _ _ (by decide)] ; decide
      simp [exePath, exePathSpec, pathJoin, h, hr, hs, hd]
    | true =>
      have hd : endsWithSlash (td ++ "release") = false := by
        rw [endsWithSlash_append _ _ (by decide)] ; decide
      simp [exePath, exePathSpec, pathJoin, h, hr, hs, hd]

theorem exe_path_concatenation_witness :
    exePath bnrTargetDirSlash = exePathSpec bnrTargetDirSlash :=
  (exe_path_concatenation bnrTargetDirSlash ("build/")).2.2 rfl (by decide)

/-- C4: the argument vector is build followed by the flags in declaration
order, but the error-format option is rendered as the non-canonical flag
message-format-path, not the canonical cargo flag message-format. -/
theorem build_args_message_format_flag :
    buildArgs bnrFull
        = [ "build", "--quiet", "--bin=app", "--package=pkg", "--jobs", "4", "--release",
            "--profile=prof", "--features=f1", "--features=f2", "--all-features",
            "--no-default-features", "--target=x86", "--manifest-path=Cargo.toml",
            "--message-format-path=json", "-v", "-v", "--color=always", "--frozen",
            "--locked", "--offline" ]
    ∧ buildArgs bnrMsgFmt = [ "build", "--bin=app", "--message-format-path=json" ]
    ∧ "--message-format-path=json" ∈ buildArgs bnrMsgFmt
    ∧ "--message-format=json" ∉ buildArgs bnrMsgFmt :=
  ⟨rfl, rfl, by decide, by decide⟩

/-- C5: when the build fails the supervisor state is exactly preserved,
no kill, reap or spawn action happens, and the iteration proceeds to the
event wait with the child unchanged. -/
theorem build_failure_preserves_child (gi : GitignoreMatcher) (p s : Option Child)
    (kr rr : SysResult) (buf rest : List RecvResult) :
    supStep false p s kr rr = (p, [ SupAction.buildInvoked ])
    ∧ (waitLoop gi buf = WaitResult.resumed rest →
        iteration gi false p s kr rr buf
          = IterOutcome.next p (drainLoop rest) [ SupAction.buildInvoked ]) := by
  refine ⟨rfl, ?_⟩
  intro h
  simp [iteration, h, supStep]

theorem build_failure_preserves_child_witness :
    iteration neverIgnore false (some ⟨7⟩) none SysResult.ok SysResult.ok
        [ RecvResult.ok DebouncedEvent.rescan ]
      = IterOutcome.next (some ⟨7⟩) [] [ SupAction.buildInvoked ] :=
  (build_failure_preserves_child neverIgnore (some ⟨7⟩) none SysResult.ok SysResult.ok
      [ RecvResult.ok DebouncedEvent.rescan ] []).2 (by decide)

/-- C6 counterexample: an event-source error reported in-band as an Error
event is matched by the catch-all arm and silently skipped: the loop keeps
waiting instead of exiting. -/
theorem error_event_skipped_counterexample :
    waitStep neverIgnore
        (RecvResult.ok (DebouncedEvent.errorEvent ("watch limit reached") none))
      = LoopAction.keepWaiting := rfl

/-- C6 amended: a failure of the blocking receive itself (disconnected
channel) is fatal, the unwrap panics and the process exits non-zero; but an
in-band Error event is silently skipped and the loop keeps waiting. -/
theorem recv_error_fatal_error_events_skipped (gi : GitignoreMatcher)
    (msg : String) (p : Option String) (rest : List RecvResult) :
    waitStep gi RecvResult.err = LoopAction.exitNonZero
    ∧ waitLoop gi (RecvResult.err :: rest) = WaitResult.exited
    ∧ waitStep gi (RecvResult.ok (DebouncedEvent.errorEvent msg p))
        = LoopAction.keepWaiting :=
  ⟨rfl, rfl, rfl⟩

/-- C7: the drain discards every pending event until the channel is empty,
after a meaningful break the iteration resumes with a fully drained buffer,
and every iteration performs exactly one build invocation. -/
theorem drain_after_meaningful_event (gi : GitignoreMatcher)
    (events : List DebouncedEvent) (buildOk : Bool) (p s : Option Child)
    (kr rr : SysResult) (buf rest : List RecvResult) :
    drainLoop (events.map RecvResult.ok) = []
    ∧ (waitLoop gi buf = WaitResult.resumed rest →
        iteration gi buildOk p s kr rr buf
          = IterOutcome.next (supStep buildOk p s kr rr).1 (drainLoop rest)
              (supStep buildOk p s kr rr).2)
    ∧ (supStep buildOk p s kr rr).2.count SupAction.buildInvoked = 1 := by
  refine ⟨?_, ?_, ?_⟩
  · induction events with
    | nil => rfl
    | cons e es ih => simpa [drainLoop] using ih
  · intro h
    simp [iteration, h]
  · cases buildOk with
    | false => simp [supStep]
    | true => cases p <;> simp [supStep, List.count_cons]

theorem drain_after_meaningful_event_witness :
    iteration neverIgnore true none (some ⟨2⟩) SysResult.ok SysResult.ok
        [ RecvResult.ok DebouncedEvent.rescan,
          RecvResult.ok (DebouncedEvent.write ("a")),
          RecvResult.ok (DebouncedEvent.write ("b")) ]
      = IterOutcome.next (supStep true none (some ⟨2⟩) SysResult.ok SysResult.ok).1
          (drainLoop [ RecvResult.ok (DebouncedEvent.write ("a")),
                       RecvResult.ok (DebouncedEvent.write ("b")) ])
          (supStep true none (some ⟨2⟩) SysResult.ok SysResult.ok).2 :=
  (drain_after_meaningful_event neverIgnore [] true none (some ⟨2⟩)
      SysResult.ok SysResult.ok
      [ RecvResult.ok DebouncedEvent.rescan,
        RecvResult.ok (DebouncedEvent.write ("a")),
        RecvResult.ok (DebouncedEvent.write ("b")) ]
      [ RecvResult.ok (DebouncedEvent.write ("a")),
        RecvResult.ok (DebouncedEvent.write ("b")) ]).2.1 (by decide)

/-- C8: when the spawn fails after a successful build the current child
becomes none, the iteration proceeds to the event wait rather than
terminating, and a later successful build attempts the spawn again. -/
theorem spawn_failure_nonfatal (gi : GitignoreMatcher) (p s : Option Child)
    (kr rr : SysResult) (buf rest : List RecvResult) :
    (supStep true p none kr rr).1 = none
    ∧ (waitLoop gi buf = WaitResult.resumed rest →
        iteration gi true p none kr rr buf
          = IterOutcome.next none (drainLoop rest) (supStep true p none kr rr).2)
    ∧ SupAction.childSpawned ∈ (supStep true none s kr rr).2 := by
  refine ⟨?_, ?_, ?_⟩
  · cases p <;> rfl
  · intro h
    cases p <;> simp [iteration, h, supStep]
  · simp [supStep]

theorem spawn_failure_nonfatal_witness :
    iteration neverIgnore true (some ⟨3⟩) none SysResult.ok SysResult.ok
        [ RecvResult.ok DebouncedEvent.rescan ]
      = IterOutcome.next none []
          (supStep true (some ⟨3⟩) none SysResult.ok SysResult.ok).2 :=
  (spawn_failure_nonfatal neverIgnore (some ⟨3⟩) none SysResult.ok SysResult.ok
      [ RecvResult.ok DebouncedEvent.rescan ] []).2.1 (by decide)

/-- C9: an empty configured list watches exactly the current directory
recursively; a nonempty list watches exactly the configured roots, every
watch being recursive. -/
theorem watch_roots_selection (watch : List String) (p : String) (md : RecursiveMode) :
    (watch = [] → watchTargets watch = [ (".", RecursiveMode.recursive) ])
    ∧ (watch ≠ [] →
        ((p, md) ∈ watchTargets watch ↔ p ∈ watch ∧ md = RecursiveMode.recursive))
    ∧ ∀ t ∈ watchTargets watch, t.2 = RecursiveMode.recursive := by
  refine ⟨?_, ?_, ?_⟩
  · intro h
    subst h
    rfl
  · intro h
    have hne : ¬ (watch.isEmpty = true) := by
      cases watch with
      | nil => exact absurd rfl h
      | cons a l => simp
    constructor
    · intro hm
      unfold watchTargets at hm
      rw [if_neg hne] at hm
      obtain ⟨w, hw, hwt⟩ := List.mem_map.1 hm
      rw [Prod.mk.injEq] at hwt
      exact ⟨hwt.1 ▸ hw, hwt.2.symm⟩
    · rintro ⟨hp, rfl⟩
      unfold watchTargets
      rw [if_neg hne]
      exact List.mem_map.2 ⟨p, hp, rfl⟩
  · intro t ht
    unfold watchTargets at ht
    by_cases h : watch.isEmpty = true
    · rw [if_pos h] at ht
      simp at ht
      simp [ht]
    · rw [if_neg h] at ht
      obtain ⟨w, hw, hwt⟩ := List.mem_map.1 ht
      rw [← hwt]

theorem watch_roots_selection_witness :
    watchTargets [] = [ (".", RecursiveMode.recursive) ]
    ∧ (("src", RecursiveMode.recursive) ∈ watchTargets [ "src" ] ↔
        "src" ∈ [ "src" ] ∧ RecursiveMode.recursive = RecursiveMode.recursive) :=
  ⟨(watch_roots_selection [] (".") RecursiveMode.recursive).1 rfl,
   (watch_roots_selection [ "src" ] ("src") RecursiveMode.recursive).2.1 (by decide)⟩

/-- C10: the wait loop consults the matcher only at is_dir false: two
matchers agreeing on the false slice classify every received result
identically, so directory-only rules can never suppress an event. -/
theorem ignore_matcher_isdir_false (gi gi2 : GitignoreMatcher)
    (h : ∀ f, gi f false = gi2 f false) (r : RecvResult) :
    waitStep gi r = waitStep gi2 r := by
  cases r with
  | err => rfl
  | ok e => cases e <;> simp [waitStep, h]

theorem ignore_matcher_isdir_false_witness :
    waitStep dirOnlyIgnore (RecvResult.ok (DebouncedEvent.create ("src")))
      = waitStep neverIgnore (RecvResult.ok (DebouncedEvent.create ("src"))) :=
  ignore_matcher_isdir_false dirOnlyIgnore neverIgnore (fun _ => rfl) _
